import Mathlib

/-!
Verification development for the Happy English web application
(src/index.tsx and the variant src/unnamed/part_001) and the offline-cache
service worker (src/unnamed/part_000).

The TypeScript source is shallowly embedded as pure Lean functions:

* React `useState` fields become record fields of explicit state types
  (`AppState`, `QuizState`, `RoleplayState`).
* Event handlers (`handleHome`, `handleAnswer`, `next`/`prev`, `sendMessage`)
  become state-transition functions.
* The asynchronous `fetchVocabulary` is embedded as a function of the current
  state together with the gateway outcome (`GatewayResult`); the host
  JSON.parse stage is abstracted by the `ParsedPayload` inductive.
* JavaScript string primitives used by the source (`includes`, `toLowerCase`,
  `trim`, `substring`) are embedded as executable functions over the
  character list `String.data`; `toLowerCase` is modelled on the ASCII range,
  which covers every lower-case trigger substring the source tests for.
* `Array.prototype.sort` called with the inconsistent comparator
  `() => 0.5 - Math.random()` returns some permutation of its input that
  depends on the random source; it is embedded as an explicit permutation
  parameter where claims quantify over all permutations, and as a
  fair-coin-driven insertion sort (`randomComparatorSort`) where the
  distribution of the resulting order is itself at issue.
-/

namespace WEB

/-- VocabWord record from src/index.tsx lines 40-45 (the optional
`generatedImage` enrichment field is omitted: no claim mentions it and it is
never read by the embedded operations). -/
structure VocabWord where
  english : String
  chinese : String
  emoji : String
deriving DecidableEq

/-- QuizItem record from src/index.tsx lines 47-49: a VocabWord plus the
multiple-choice `options`. -/
structure QuizItem extends VocabWord where
  options : List String
deriving DecidableEq

/-- Screen enumeration from src/index.tsx line 254. -/
inductive Screen where
  | home
  | loading
  | learn
  | quiz
  | roleplay
deriving DecidableEq

/-- The App-level useState fields of src/index.tsx lines 251-260 that the
claims mention (`mode` and `inputKey` are omitted: no embedded operation
reads or writes them). -/
structure AppState where
  apiKey : String
  screen : Screen
  category : String
  vocabList : List VocabWord
  quizItems : List QuizItem
  error : String
  errorDetail : String
deriving DecidableEq

/-- Per-item quiz construction, src/index.tsx lines 388-393 (identically
src/unnamed/part_001 lines 134-140).  The two calls to
`sort(() => 0.5 - Math.random())` are embedded as the permutation-valued
parameters `shuf1` (distractor order) and `shuf2` (final option order),
keyed by the item they are invoked for; theorems about this function
quantify over all permutation-producing choices of `shuf1`/`shuf2`. -/
def makeQuizItem (shuf1 : VocabWord → List VocabWord → List VocabWord)
    (shuf2 : VocabWord → List String → List String)
    (data : List VocabWord) (item : VocabWord) : QuizItem :=
  let others := data.filter (fun w => w.english ≠ item.english)
  let distractors := ((shuf1 item others).take 3).map VocabWord.english
  { toVocabWord := item, options := shuf2 item (distractors ++ [item.english]) }

/-- The `data.map` producing `qItems`, src/index.tsx line 388. -/
def makeQuizItems (shuf1 : VocabWord → List VocabWord → List VocabWord)
    (shuf2 : VocabWord → List String → List String)
    (data : List VocabWord) : List QuizItem :=
  data.map (makeQuizItem shuf1 shuf2 data)

/-- handleHome, src/index.tsx lines 459-464: sets screen to home and clears
vocabList, error and errorDetail.  It does not touch quizItems, apiKey or
category. -/
def handleHome (s : AppState) : AppState :=
  { s with screen := .home, vocabList := [], error := "", errorDetail := "" }

/-- Local state of the QuizMode component, src/index.tsx lines 935-939. -/
structure QuizState where
  idx : Nat
  score : Nat
  selected : Option String
  isCorrect : Option Bool
  finished : Bool
deriving DecidableEq

/-- The useState initial values of QuizMode (src/index.tsx lines 935-939);
this is the state the component holds whenever it is freshly mounted. -/
def initialQuizState : QuizState :=
  { idx := 0, score := 0, selected := none, isCorrect := none, finished := false }

/-- JavaScript truthiness of the `selected : string | null` state as used by
the guard `if (selected) return;` (src/index.tsx line 944): `null` and the
empty string are falsy, every other string is truthy. -/
def jsTruthyString : Option String → Bool
  | none => false
  | some s => s ≠ ""

/-- The synchronous part of handleAnswer, src/index.tsx lines 943-952
(identically src/unnamed/part_001 lines 403-416): guarded by the truthiness
of `selected`, it records the selection, sets the correctness flag and
increments the score on a correct answer.  `current` is `items[idx]`.  The
delayed advance scheduled inside setTimeout is a separate event and is not
part of this function. -/
def handleAnswer (current : QuizItem) (s : QuizState) (option : String) : QuizState :=
  if jsTruthyString s.selected then s
  else
    { s with
      selected := some option
      isCorrect := some (option = current.english)
      score := if option = current.english then s.score + 1 else s.score }

/-- next, src/index.tsx lines 829-834 (src/unnamed/part_001 lines 336-338):
increment idx only when `idx < items.length - 1`.  JavaScript evaluates
`items.length - 1` to `-1` on an empty list, so the guard is false there,
exactly as with Nat truncated subtraction. -/
def nextCard (itemsLength idx : Nat) : Nat :=
  if idx < itemsLength - 1 then idx + 1 else idx

/-- prev, src/index.tsx lines 835-840 (src/unnamed/part_001 lines 339-341):
decrement idx only when `idx > 0`. -/
def prevCard (idx : Nat) : Nat :=
  if 0 < idx then idx - 1 else idx

/-- Substring search over character lists: `charListContains needle hay`
is true when `needle` occurs contiguously in `hay`. -/
def charListContains (needle : List Char) : List Char → Bool
  | [] => needle.isEmpty
  | c :: rest => needle.isPrefixOf (c :: rest) || charListContains needle rest

/-- JavaScript `haystack.includes(needle)`. -/
def jsIncludes (haystack needle : String) : Bool :=
  charListContains needle.data haystack.data

/-- JavaScript `toLowerCase`, modelled character-wise on the ASCII range
(every trigger substring the source compares against is ASCII; CJK
characters are untouched by both). -/
def jsToLower (s : String) : String :=
  String.mk (s.data.map Char.toLower)

/-- JavaScript `substring(0, n)`, modelled as taking the first `n`
characters. -/
def jsTake (s : String) (n : Nat) : String :=
  String.mk (s.data.take n)

/-- JavaScript `trim`, removing leading and trailing whitespace. -/
def jsTrim (s : String) : String :=
  String.mk (((s.data.dropWhile Char.isWhitespace).reverse.dropWhile
      Char.isWhitespace).reverse)

/-- Result of the error classification in the catch block of fetchVocabulary:
the user-visible message and the `shouldLogout` flag. -/
structure ErrorClass where
  friendlyMsg : String
  shouldLogout : Bool
deriving DecidableEq

/-- JavaScript `String(e)` for an `Error` with message `message`. -/
def jsErrorToString (message : String) : String :=
  if message = "" then "Error" else "Error: " ++ message

/-- Error classification of the catch block, src/index.tsx lines 397-435:
the branch cascade over the lower-cased `String(e)` and `e.message`,
returning the friendly message and whether the stored key is cleared. -/
def classifyFetchError (detail : String) : ErrorClass :=
  let errorStr := jsToLower (jsErrorToString detail)
  let detailStr := jsToLower detail
  if jsIncludes detailStr "400" || jsIncludes errorStr "400" then
    ⟨"API Key 無效 (400) - 請檢查您的 Key 是否正確複製。", true⟩
  else if jsIncludes detailStr "403" || jsIncludes errorStr "403" ||
      jsIncludes detailStr "permission" || jsIncludes detailStr "forbidden" then
    ⟨"API 權限不足 (403)。請檢查：\n1. API Key 是否正確\n2. 專案是否已啟用 Generative Language API\n3. 是否有有效的計費帳戶\n4. 點擊下方連結查看詳細解決步驟", true⟩
  else if jsIncludes detailStr "404" || jsIncludes errorStr "404" ||
      jsIncludes detailStr "not found" then
    ⟨"模型未找到 (404) - 可能是模型名稱不正確或 API 版本問題。", false⟩
  else if jsIncludes detailStr "429" || jsIncludes errorStr "429" ||
      jsIncludes detailStr "quota" || jsIncludes detailStr "rate limit" then
    ⟨"請求太頻繁 (429) - 請休息一下再試。", false⟩
  else if jsIncludes detailStr "503" || jsIncludes detailStr "500" ||
      jsIncludes errorStr "503" || jsIncludes errorStr "500" then
    ⟨"AI 伺服器忙碌中，請重試。", false⟩
  else if jsIncludes detailStr "network" || jsIncludes detailStr "fetch" ||
      jsIncludes detailStr "connection" then
    ⟨"網路連線問題 - 請檢查您的網路連線。", false⟩
  else if jsIncludes detailStr "api key" || jsIncludes detailStr "authentication" ||
      jsIncludes detailStr "unauthorized" then
    ⟨"API Key 驗證失敗 - 請檢查您的 API Key 是否正確。", true⟩
  else
    ⟨"讀取失敗：" ++ jsTake detail 100 ++ (if 100 < detail.length then "..." else ""),
     false⟩

/-- Tail of the catch block, src/index.tsx lines 437-445: the classified
message is stored in `error`, the raw detail in `errorDetail`; then either
the credential is cleared (shouldLogout) or the screen is set to home. -/
def handleFetchFailure (s : AppState) (detail : String) : AppState :=
  let c := classifyFetchError detail
  let s1 := { s with error := c.friendlyMsg, errorDetail := detail }
  if c.shouldLogout then { s1 with apiKey := "" } else { s1 with screen := .home }

/-- Abstraction of the host `JSON.parse` stage applied to the (markdown
cleaned) response text, src/index.tsx lines 376-384: the text parses to an
array of vocabulary objects (directly or through the `items` field), parses
to something that is not an array, or does not parse at all. -/
inductive ParsedPayload where
  | vocabArray (items : List VocabWord)
  | nonArray
  | unparsable
deriving DecidableEq

/-- Outcome of the awaited `generateContent` call, src/index.tsx line 342:
the request returns (with either no text or a text whose parse stage is the
given payload), or throws with the given message. -/
inductive GatewayResult where
  | ok (text : Option ParsedPayload)
  | thrown (message : String)
deriving DecidableEq

/-- fetchVocabulary, src/index.tsx lines 314-446, as a function of the
pre-call state and the gateway outcome; it returns the state after the
asynchronous handler has run to completion.  The initial `!ai.current`
guard is subsumed by the key guard: the effect hook at lines 273-294 keeps
`ai.current` non-null exactly while a non-blank key is stored.  An empty
response text and the two malformed-parse cases each throw the fixed
messages of lines 370 and 383 inside the try, landing in the same catch
block as a gateway throw. -/
def fetchVocabulary (shuf1 : VocabWord → List VocabWord → List VocabWord)
    (shuf2 : VocabWord → List String → List String)
    (s : AppState) (selectedCategory : String) (r : GatewayResult) : AppState :=
  if jsTrim s.apiKey = "" then
    { s with error := "API Key 尚未設定。請在登入頁面輸入您的 API Key。", screen := .home }
  else
    let s1 := { s with screen := .loading, category := selectedCategory,
                       error := "", errorDetail := "" }
    match r with
    | .thrown msg => handleFetchFailure s1 msg
    | .ok none => handleFetchFailure s1 "模型未回傳任何文字，可能被安全性設定阻擋。"
    | .ok (some .unparsable) => handleFetchFailure s1 "無法解析 AI 回傳的資料，請重試。"
    | .ok (some .nonArray) => handleFetchFailure s1 "無法解析 AI 回傳的資料，請重試。"
    | .ok (some (.vocabArray data)) =>
      { s1 with vocabList := data, quizItems := makeQuizItems shuf1 shuf2 data,
                screen := .learn }

/-- Message roles of the roleplay transcript, src/index.tsx line 1102. -/
inductive ChatRole where
  | user
  | model
deriving DecidableEq

/-- One transcript entry, src/index.tsx line 1102. -/
structure ChatMessage where
  role : ChatRole
  text : String
deriving DecidableEq

/-- Local state of the RoleplayMode component, src/index.tsx lines 1102-1105;
`chatReady` models `chatRef.current` being non-null. -/
structure RoleplayState where
  messages : List ChatMessage
  input : String
  loading : Bool
  chatReady : Bool
deriving DecidableEq

/-- The fixed fallback assistant message appended on a failed chat turn,
src/index.tsx line 1147. -/
def fallbackReply : String := "I\x27m sorry, I\x27m a bit tired. Can you say that again?"

/-- The assistant text actually appended: the gateway reply on success, the
fixed fallback on failure. -/
def gatewayReplyText : Except Unit String → String
  | .ok reply => reply
  | .error _ => fallbackReply

/-- sendMessage, src/index.tsx lines 1134-1151, as a function of the
pre-call state and the chat-turn outcome, returning the state after the
handler (including its catch/finally) has completed.  The guard returns the
state unchanged when the trimmed input is empty, a request is in flight
(`loading`), or the chat session is not initialized.  Otherwise the user
message (captured before the input is cleared) and exactly one assistant
entry are appended and `loading` ends false. -/
def sendMessage (s : RoleplayState) (turn : Except Unit String) : RoleplayState :=
  if jsTrim s.input == "" || s.loading || !s.chatReady then s
  else
    { s with
      input := "",
      messages := s.messages ++ [⟨.user, s.input⟩, ⟨.model, gatewayReplyText turn⟩],
      loading := false }

/-- CACHE_NAME of the service worker, src/unnamed/part_000 line 1. -/
def CACHE_NAME : String := "okinawa-food-v1"

/-- Effect of the activate listener, src/unnamed/part_000 lines 27-38, on
the set of cache names: every key different from CACHE_NAME is deleted and
the current one is kept, so the surviving keys are the filter below. -/
def activateCaches (keyList : List String) : List String :=
  keyList.filter (fun key => key = CACHE_NAME)

/-- The fetch listener, src/unnamed/part_000 lines 41-52:
`caches.match(event.request).then(r => r || fetch(event.request))`.  A
cached Response object is always truthy, and a missed match resolves to
undefined, so this is exactly the Option fallback below. -/
def handleFetch {Req Resp : Type} (cacheMatch : Req → Option Resp)
    (networkFetch : Req → Resp) (request : Req) : Resp :=
  match cacheMatch request with
  | some response => response
  | none => networkFetch request

/-- One comparator-driven insertion step of `Array.prototype.sort` under the
inconsistent comparator `() => 0.5 - Math.random()`: each element comparison
consumes one fair coin flip deciding the relative order (the comparator
returns a negative or positive value with probability one half each).
Returns the list with `a` inserted and the unconsumed flips.  The
out-of-flips case is never reached when enough flips are supplied. -/
def randomComparatorInsert {α : Type} : List Bool → α → List α → List α × List Bool
  | flips, a, [] => ([a], flips)
  | [], a, b :: l => (a :: b :: l, [])
  | f :: flips, a, b :: l =>
    if f then (a :: b :: l, flips)
    else
      let r := randomComparatorInsert flips a l
      (b :: r.1, r.2)

/-- Comparator-driven insertion sort: the reference small-array model of
`sort(() => 0.5 - Math.random())` (ECMAScript leaves the order produced by
an inconsistent comparator implementation-defined; mainstream engines run
an insertion sort on arrays of this size).  Each flip list determines one
possible output ordering. -/
def randomComparatorSort {α : Type} : List Bool → List α → List α × List Bool
  | flips, [] => ([], flips)
  | flips, a :: l =>
    let r := randomComparatorSort flips l
    randomComparatorInsert r.2 a r.1

/-- All coin-flip sequences of length n, each equally likely. -/
def allFlips : Nat → List (List Bool)
  | 0 => [[]]
  | n + 1 => ((allFlips n).map (List.cons false)) ++ ((allFlips n).map (List.cons true))

/-- Position at which the marked element 3 — standing for `item.english`,
which the source appends last: `[...distractors, item.english]` — lands when
the 4-element options array is shuffled by the comparator sort under the
given flips.  Sorting 4 elements consumes at most 6 comparisons, so length-6
flip lists cover every execution path. -/
def correctAnswerPos (flips : List Bool) : Nat :=
  ((randomComparatorSort flips [0, 1, 2, 3]).1).findIdx (fun x => x == 3)

/-- Number of the 64 equally likely length-6 flip sequences that put the
correct answer at position `p`.  A positionally unbiased shuffle would give
16 for every position. -/
def correctPositionCount (p : Nat) : Nat :=
  ((allFlips 6).filter (fun flips => correctAnswerPos flips == p)).length

/-- Identity choice for the distractor shuffle (one admissible permutation),
used to instantiate theorems at concrete inputs. -/
def idShuffle1 : VocabWord → List VocabWord → List VocabWord := fun _ l => l

/-- Identity choice for the option-order shuffle. -/
def idShuffle2 : VocabWord → List String → List String := fun _ l => l

/-- C2 counterexample state: a session that finished a quiz and still holds
generated quiz items. -/
def c2State : AppState :=
  { apiKey := "key", screen := .quiz, category := "animals",
    vocabList := [], quizItems := [{ english := "dog", chinese := "狗", emoji := "🐶",
                                     options := ["dog", "cat", "car", "bus"] }],
    error := "", errorDetail := "" }

/-- Quiz item whose options include the empty string, used by the C3
counterexample and the C3/C10 witnesses. -/
def c3Item : QuizItem :=
  { english := "dog", chinese := "狗", emoji := "🐶", options := ["", "dog", "cat", "bus"] }

/-- Concrete pre-fetch state for the C5 witness. -/
def c5State : AppState :=
  { apiKey := "key", screen := .home, category := "", vocabList := [],
    quizItems := [], error := "", errorDetail := "" }

/-- Concrete pre-fetch state for the C6 counterexample and witness. -/
def c6State : AppState :=
  { apiKey := "AIzaSyTest", screen := .home, category := "", vocabList := [],
    quizItems := [], error := "", errorDetail := "" }

/-- Concrete roleplay state (idle, non-blank input) for the C8 witness. -/
def c8State : RoleplayState :=
  { messages := [], input := "Hello", loading := false, chatReady := true }

/-- Concrete four-word vocabulary list (the scenario list of spec section 8)
for the C1 witness. -/
def sampleVocab : List VocabWord :=
  [{ english := "dog", chinese := "狗", emoji := "🐶" },
   { english := "cat", chinese := "貓", emoji := "🐱" },
   { english := "car", chinese := "車", emoji := "🚗" },
   { english := "bus", chinese := "巴士", emoji := "🚌" }]

/-- Concrete cache-lookup function for the C9 witness. -/
def c9Cache : Nat → Option String := fun n => if n = 1 then some "cached" else none

/-- Concrete network fallback function for the C9 witness. -/
def c9Network : Nat → String := fun _ => "network"

end WEB

open WEB

/-- C2 (counterexample): handleHome leaves `quizItems` untouched, so after
goHome from a state holding quiz items, `quizItems` is not back to its
initial empty value, contradicting the claim that all five fields reset. -/
theorem c2_goHome_quizItems_not_reset :
    (handleHome c2State).quizItems ≠ [] := by
  decide

/-- C2 (amended): goHome resets the screen to Home and resets vocabList,
error and errorDetail to their initial values, while quizItems is left
unchanged by goHome itself; score and currentIndex live in the quiz/learn
components, whose freshly mounted state is `initialQuizState` with index 0,
score 0 and no recorded answer. -/
theorem c2_goHome_resets_except_quizItems (s : AppState) :
    (handleHome s).screen = Screen.home ∧
    (handleHome s).vocabList = [] ∧
    (handleHome s).error = "" ∧
    (handleHome s).errorDetail = "" ∧
    (handleHome s).quizItems = s.quizItems ∧
    initialQuizState.idx = 0 ∧
    initialQuizState.score = 0 ∧
    initialQuizState.selected = none := by
  refine ⟨rfl, rfl, rfl, rfl, rfl, rfl, rfl, rfl⟩

/-- C3 (counterexample): from a fresh question, submitting the empty-string
option records it (`selected = some ""`), yet a second submitAnswer call at
the same question is still processed and changes the score, because the
double-answer guard `if (selected)` tests string truthiness and the empty
string is falsy. -/
theorem c3_second_submit_changes_score :
    (handleAnswer c3Item (handleAnswer c3Item initialQuizState "") "").selected
        = some "" ∧
    (handleAnswer c3Item
        (handleAnswer c3Item initialQuizState "") "dog").score
      ≠ (handleAnswer c3Item initialQuizState "").score := by
  constructor
  · decide
  · decide

/-- C3 (amended): submitAnswer is idempotent for every quiz state in which a
non-empty answer has been recorded for the current item: a second call with
any option returns the state unchanged, so score, selectedAnswer and
lastAnswerCorrect are all unchanged.  (The recorded answer must be non-empty
because the guard tests JavaScript truthiness, see the C10 claim.) -/
theorem c3_submit_idempotent_nonempty (current : QuizItem) (s : QuizState)
    (a : String) (hrec : s.selected = some a) (hne : a ≠ "") (opt : String) :
    handleAnswer current s opt = s := by
  simp [handleAnswer, jsTruthyString, hrec, hne]

/-- C3 witness: the amended idempotence theorem applies at a concrete
answered state. -/
theorem c3_submit_idempotent_witness :
    handleAnswer c3Item
        { idx := 0, score := 1, selected := some "dog", isCorrect := some true,
          finished := false } "cat"
      = { idx := 0, score := 1, selected := some "dog", isCorrect := some true,
          finished := false } :=
  c3_submit_idempotent_nonempty c3Item _ "dog" rfl (by decide) "cat"

/-- C7: Learn-mode card navigation never wraps: prevCard at index 0 and
nextCard at the last index are no-ops; otherwise each moves the index by
exactly one, and from any in-bounds index both results stay within
`[0, len - 1]`.  Both functions are total, so navigation never throws. -/
theorem c7_card_navigation_clamped (len idx : Nat) (hlt : idx < len) :
    prevCard 0 = 0 ∧
    nextCard len (len - 1) = len - 1 ∧
    (0 < idx → prevCard idx = idx - 1) ∧
    (idx < len - 1 → nextCard len idx = idx + 1) ∧
    prevCard idx < len ∧
    nextCard len idx < len := by
  unfold prevCard nextCard
  refine ⟨by simp, by split <;> omega, ?_, ?_, ?_, ?_⟩ <;> intros <;> split <;> omega

/-- C7 witness: the navigation theorem applies at a concrete list length and
index. -/
theorem c7_card_navigation_witness :
    nextCard 6 1 = 2 :=
  ((c7_card_navigation_clamped 6 1 (by decide)).2.2.2.1 (by decide))

/-- C10: the double-answer guard keys on JavaScript truthiness of the
recorded selection.  For a quiz item whose options contain the empty string,
submitting the empty string records it without scoring, and a further
submitAnswer at the same question is still processed: it overwrites
selectedAnswer with the new option and increments the score when that option
is the correct answer. -/
theorem c10_empty_string_defeats_guard (current : QuizItem) (s : QuizState)
    (_hopt : "" ∈ current.options) (hsel : s.selected = none)
    (hne : current.english ≠ "") :
    (handleAnswer current s "").selected = some "" ∧
    (handleAnswer current s "").score = s.score ∧
    (handleAnswer current (handleAnswer current s "") current.english).selected
        = some current.english ∧
    (handleAnswer current (handleAnswer current s "") current.english).score
        = s.score + 1 := by
  have hne' : ¬ ("" = current.english) := fun h => hne h.symm
  simp [handleAnswer, jsTruthyString, hsel, hne']

/-- C10 witness: the guard-bypass theorem applies at a concrete item with an
empty-string option and a fresh question state. -/
theorem c10_empty_string_witness :
    (handleAnswer c3Item
        (handleAnswer c3Item initialQuizState "") c3Item.english).score
      = initialQuizState.score + 1 :=
  (c10_empty_string_defeats_guard c3Item initialQuizState
    (by decide) rfl (by decide)).2.2.2

/-- Helper: the classified friendly message is never the empty string, in
any branch of the cascade. -/
theorem classifyFetchError_friendly_ne (msg : String) :
    (classifyFetchError msg).friendlyMsg ≠ "" := by
  obtain ⟨d⟩ := msg
  unfold classifyFetchError
  simp only []
  split
  · decide
  · split
    · decide
    · split
      · decide
      · split
        · decide
        · split
          · decide
          · split
            · decide
            · split
              · decide
              · intro h
                rw [show (HAppend.hAppend : String → String → String)
                      = fun a b => ⟨a.data ++ b.data⟩ from rfl] at h
                simp [jsTake, String.ext_iff] at h

/-- C5: when the response of a vocabulary fetch is malformed (unparsable
JSON or a non-array payload), the controller ends on the Home screen with a
non-empty errorMessage and the vocabulary list still empty (every reachable
fetch starts from a state whose vocabList is empty, since handleHome clears
it and it is only populated together with a transition to Learn). -/
theorem c5_malformed_response_returns_home
    (shuf1 : VocabWord → List VocabWord → List VocabWord)
    (shuf2 : VocabWord → List String → List String)
    (s : AppState) (cat : String) (p : ParsedPayload)
    (hkey : jsTrim s.apiKey ≠ "") (hvocab : s.vocabList = [])
    (hmal : p = ParsedPayload.unparsable ∨ p = ParsedPayload.nonArray) :
    (fetchVocabulary shuf1 shuf2 s cat (GatewayResult.ok (some p))).screen
        = Screen.home ∧
    (fetchVocabulary shuf1 shuf2 s cat (GatewayResult.ok (some p))).error ≠ "" ∧
    (fetchVocabulary shuf1 shuf2 s cat (GatewayResult.ok (some p))).vocabList
        = [] := by
  have hlg : (classifyFetchError "無法解析 AI 回傳的資料，請重試。").shouldLogout = false := by
    decide
  have hmsg : (classifyFetchError "無法解析 AI 回傳的資料，請重試。").friendlyMsg ≠ "" := by
    decide
  rcases hmal with rfl | rfl <;>
    simp [fetchVocabulary, handleFetchFailure, hkey, hlg, hmsg, hvocab]

/-- C5 witness: the malformed-response theorem applies at a concrete state
and an unparsable payload. -/
theorem c5_malformed_response_witness :
    (fetchVocabulary idShuffle1 idShuffle2 c5State "animals"
        (GatewayResult.ok (some ParsedPayload.unparsable))).screen = Screen.home :=
  (c5_malformed_response_returns_home idShuffle1 idShuffle2 c5State "animals"
    ParsedPayload.unparsable (by decide) rfl (Or.inl rfl)).1

/-- C6 (counterexample): on an authorization failure (a gateway throw whose
message carries the HTTP 400 marker) the stored credential is cleared, but
the screen field is not returned to Home — it stays at Loading, where line
443 `setScreen("home")` is skipped exactly when `shouldLogout` is set. -/
theorem c6_auth_failure_screen_not_home :
    (fetchVocabulary idShuffle1 idShuffle2 c6State "animals"
        (GatewayResult.thrown "Request failed with status 400")).apiKey = "" ∧
    (fetchVocabulary idShuffle1 idShuffle2 c6State "animals"
        (GatewayResult.thrown "Request failed with status 400")).screen
      ≠ Screen.home := by
  constructor
  · decide
  · decide

/-- C6 (amended): for every vocabulary fetch failing with an error the
cascade classifies as an authorization failure (shouldLogout), the
controller stores a non-empty user-visible message and clears the stored
credential (which makes the credential-entry view render), but the screen
field remains Loading instead of returning to Home. -/
theorem c6_auth_failure_clears_credential
    (shuf1 : VocabWord → List VocabWord → List VocabWord)
    (shuf2 : VocabWord → List String → List String)
    (s : AppState) (cat msg : String)
    (hkey : jsTrim s.apiKey ≠ "")
    (hauth : (classifyFetchError msg).shouldLogout = true) :
    (fetchVocabulary shuf1 shuf2 s cat (GatewayResult.thrown msg)).error ≠ "" ∧
    (fetchVocabulary shuf1 shuf2 s cat (GatewayResult.thrown msg)).apiKey = "" ∧
    (fetchVocabulary shuf1 shuf2 s cat (GatewayResult.thrown msg)).screen
        = Screen.loading := by
  have hmsg := classifyFetchError_friendly_ne msg
  simp [fetchVocabulary, handleFetchFailure, hkey, hauth, hmsg]

/-- C6 witness: the amended authorization-failure theorem applies at a
concrete state and a concrete 400 error message. -/
theorem c6_auth_failure_witness :
    (fetchVocabulary idShuffle1 idShuffle2 c6State "animals"
        (GatewayResult.thrown "Request failed with status 400")).apiKey = "" :=
  (c6_auth_failure_clears_credential idShuffle1 idShuffle2 c6State "animals"
    "Request failed with status 400" (by decide) (by decide)).2.1

/-- C8: sendMessage is a no-op whenever the trimmed input is empty, a prior
request is in flight, or the chat session is not initialized; an accepted
message appends the user entry followed by exactly one assistant entry —
the gateway reply on success, the fixed fallback message on failure — and
ends with loading cleared and the input emptied. -/
theorem c8_send_message_discipline (s : RoleplayState) (turn : Except Unit String) :
    ((jsTrim s.input = "" ∨ s.loading = true ∨ s.chatReady = false) →
        sendMessage s turn = s) ∧
    (jsTrim s.input ≠ "" → s.loading = false → s.chatReady = true →
        (sendMessage s turn).loading = false ∧
        (sendMessage s turn).input = "" ∧
        (∀ reply, turn = .ok reply →
          (sendMessage s turn).messages
            = s.messages ++ [⟨ChatRole.user, s.input⟩, ⟨ChatRole.model, reply⟩]) ∧
        (∀ u, turn = .error u →
          (sendMessage s turn).messages
            = s.messages ++ [⟨ChatRole.user, s.input⟩, ⟨ChatRole.model, fallbackReply⟩])) := by
  constructor
  · intro h
    have hg : (jsTrim s.input == "" || s.loading || !s.chatReady) = true := by
      rcases h with h | h | h <;> simp [h]
    simp [sendMessage, hg]
  · intro h1 h2 h3
    have hg : (jsTrim s.input == "" || s.loading || !s.chatReady) = false := by
      simp [h1, h2, h3]
    refine ⟨by simp [sendMessage, hg], by simp [sendMessage, hg], ?_, ?_⟩
    · intro reply hr
      subst hr
      simp [sendMessage, hg, gatewayReplyText]
    · intro u hr
      subst hr
      simp [sendMessage, hg, gatewayReplyText]

/-- C8 witness: the sendMessage theorem applies at a concrete idle state
with a failing chat turn, yielding the user entry plus the single fallback
assistant entry. -/
theorem c8_send_message_witness :
    (sendMessage c8State (Except.error ())).messages
      = c8State.messages
          ++ [⟨ChatRole.user, c8State.input⟩, ⟨ChatRole.model, fallbackReply⟩] :=
  ((c8_send_message_discipline c8State (Except.error ())).2
    (by decide) rfl rfl).2.2.2 () rfl

/-- C9: the activate handler keeps exactly the caches named CACHE_NAME and
deletes every other name, and the fetch handler answers with the cached
match when one exists and otherwise falls through to a network fetch of the
same request. -/
theorem c9_service_worker_cache_discipline {Req Resp : Type}
    (keyList : List String) (cacheMatch : Req → Option Resp)
    (networkFetch : Req → Resp) (request : Req) :
    (∀ k, k ∈ activateCaches keyList ↔ (k ∈ keyList ∧ k = CACHE_NAME)) ∧
    (∀ response, cacheMatch request = some response →
        handleFetch cacheMatch networkFetch request = response) ∧
    (cacheMatch request = none →
        handleFetch cacheMatch networkFetch request = networkFetch request) := by
  refine ⟨?_, ?_, ?_⟩
  · intro k
    simp [activateCaches, List.mem_filter]
  · intro response h
    simp [handleFetch, h]
  · intro h
    simp [handleFetch, h]

/-- C9 witness: the service-worker theorem applies at a concrete cache map
and request, serving the cached response. -/
theorem c9_service_worker_witness :
    handleFetch c9Cache c9Network 1 = "cached" :=
  (c9_service_worker_cache_discipline ["old"] c9Cache c9Network 1).2.1 "cached" rfl

/-- Helper: one comparator-driven insertion returns a permutation of the
inserted element consed on the list, for every flip sequence. -/
theorem randomComparatorInsert_perm {α : Type} (a : α) (l : List α) :
    ∀ flips : List Bool, ((randomComparatorInsert flips a l).1).Perm (a :: l) := by
  induction l with
  | nil => intro flips; simp [randomComparatorInsert]
  | cons b t ih =>
    intro flips
    cases flips with
    | nil => simp [randomComparatorInsert]
    | cons f fs =>
      simp only [randomComparatorInsert]
      split
      · exact List.Perm.refl _
      · exact ((ih fs).cons b).trans (List.Perm.swap a b t)

/-- Helper: the comparator-driven sort returns a permutation of its input,
for every flip sequence. -/
theorem randomComparatorSort_perm {α : Type} (l : List α) :
    ∀ flips : List Bool, ((randomComparatorSort flips l).1).Perm l := by
  induction l with
  | nil => intro flips; simp [randomComparatorSort]
  | cons a t ih =>
    intro flips
    simp only [randomComparatorSort]
    exact (randomComparatorInsert_perm a _ _).trans ((ih _).cons a)

/-- C4: the sort-based shuffle always yields a permutation of the options,
but its distribution is positionally biased: over the 64 equally likely
fair-coin comparator outcomes for a 4-element options array with the
correct answer appended last, the correct answer lands at positions
0, 1, 2, 3 in 8, 14, 21 and 21 of the 64 runs — position 0 would need 16
for the claimed equal probability, so the final order is not a uniformly
random permutation. -/
theorem c4_shuffle_position_bias :
    (∀ (flips : List Bool) (l : List String), ((randomComparatorSort flips l).1).Perm l) ∧
    (allFlips 6).length = 64 ∧
    correctPositionCount 0 = 8 ∧
    correctPositionCount 1 = 14 ∧
    correctPositionCount 2 = 21 ∧
    correctPositionCount 3 = 21 ∧
    correctPositionCount 0 ≠ 16 := by
  exact ⟨fun flips l => randomComparatorSort_perm l flips,
    by decide, by decide, by decide, by decide, by decide, by decide⟩

/-- Helper: mapping `english` over the filtered vocabulary list is the same
as filtering the mapped english values. -/
theorem map_english_filter (l : List VocabWord) (e : String) :
    (l.filter (fun w => w.english ≠ e)).map VocabWord.english
      = (l.map VocabWord.english).filter (fun x => x ≠ e) := by
  induction l with
  | nil => rfl
  | cons a t ih =>
    simp only [ne_eq, decide_not] at ih ⊢
    by_cases h : a.english = e <;> simp [List.filter_cons, h, ih]

/-- Helper: removing the occurrences of a present element from a
duplicate-free list shortens it by exactly one. -/
theorem length_filter_ne_of_nodup (l : List String) (e : String)
    (hnd : l.Nodup) (he : e ∈ l) :
    (l.filter (fun x => x ≠ e)).length = l.length - 1 := by
  induction l with
  | nil => cases he
  | cons a t ih =>
    rcases List.mem_cons.1 he with rfl | hmem
    · have hnotin : e ∉ t := (List.nodup_cons.1 hnd).1
      have hft : List.filter (fun x => decide (x ≠ e)) t = t := by
        apply List.filter_eq_self.2
        intro x hx
        simp only [decide_eq_true_eq]
        intro hxe
        rw [hxe] at hx
        exact hnotin hx
      rw [List.filter_cons_of_neg (by simp), hft]
      simp
    · have hne : a ≠ e := by
        rintro rfl
        exact (List.nodup_cons.1 hnd).1 hmem
      have ih' := ih (List.nodup_cons.1 hnd).2 hmem
      have hpos : 0 < t.length := List.length_pos.2 (List.ne_nil_of_mem hmem)
      rw [List.filter_cons_of_pos (by simp [hne]), List.length_cons, List.length_cons, ih']
      omega

/-- Helper: the per-item option set produced by makeQuizItem, for every
admissible resolution of the two random sorts.  With at least 4 input words
the options are 4 distinct strings containing the item answer exactly once,
the rest drawn from the other words; with fewer they are a permutation of
the item answer together with all remaining english values. -/
theorem makeQuizItem_spec
    (shuf1 : VocabWord → List VocabWord → List VocabWord)
    (shuf2 : VocabWord → List String → List String)
    (data : List VocabWord) (item : VocabWord)
    (h1 : ∀ w l, (shuf1 w l).Perm l)
    (h2 : ∀ w l, (shuf2 w l).Perm l)
    (hnd : (data.map VocabWord.english).Nodup)
    (hmem : item ∈ data) :
    (4 ≤ data.length →
        (makeQuizItem shuf1 shuf2 data item).options.length = 4 ∧
        (makeQuizItem shuf1 shuf2 data item).options.Nodup ∧
        (makeQuizItem shuf1 shuf2 data item).options.count item.english = 1 ∧
        ∀ o ∈ (makeQuizItem shuf1 shuf2 data item).options,
          o = item.english ∨ (o ≠ item.english ∧ o ∈ data.map VocabWord.english)) ∧
    (data.length < 4 →
        (makeQuizItem shuf1 shuf2 data item).options.Perm
          (item.english ::
            (data.map VocabWord.english).filter (fun x => x ≠ item.english))) := by
  have hperm1 := h1 item (data.filter (fun w => w.english ≠ item.english))
  have hmap : (data.filter (fun w => w.english ≠ item.english)).map VocabWord.english
      = (data.map VocabWord.english).filter (fun x => x ≠ item.english) :=
    map_english_filter data item.english
  have hperm_map :
      ((shuf1 item (data.filter (fun w => w.english ≠ item.english))).map
          VocabWord.english).Perm
        ((data.map VocabWord.english).filter (fun x => x ≠ item.english)) := by
    rw [← hmap]
    exact hperm1.map _
  have hnd_filter :
      ((data.map VocabWord.english).filter (fun x => x ≠ item.english)).Nodup :=
    hnd.filter _
  have hnd_shufmap :
      ((shuf1 item (data.filter (fun w => w.english ≠ item.english))).map
          VocabWord.english).Nodup :=
    hperm_map.nodup_iff.2 hnd_filter
  have hd_eq :
      ((shuf1 item (data.filter (fun w => w.english ≠ item.english))).take 3).map
          VocabWord.english
        = ((shuf1 item (data.filter (fun w => w.english ≠ item.english))).map
            VocabWord.english).take 3 :=
    List.map_take _ _ _
  have hnd_d :
      (((shuf1 item (data.filter (fun w => w.english ≠ item.english))).take 3).map
          VocabWord.english).Nodup := by
    rw [hd_eq]
    exact (List.take_sublist _ _).nodup hnd_shufmap
  have hmem_d :
      ∀ o ∈ ((shuf1 item (data.filter (fun w => w.english ≠ item.english))).take 3).map
          VocabWord.english,
        o ≠ item.english ∧ o ∈ data.map VocabWord.english := by
    intro o ho
    rw [hd_eq] at ho
    have ho2 := List.take_subset _ _ ho
    have ho3 := hperm_map.mem_iff.1 ho2
    have ho4 := List.mem_filter.1 ho3
    exact ⟨by simpa using ho4.2, ho4.1⟩
  have hnotin :
      item.english ∉
        ((shuf1 item (data.filter (fun w => w.english ≠ item.english))).take 3).map
          VocabWord.english :=
    fun h => (hmem_d _ h).1 rfl
  have hperm2 : (makeQuizItem shuf1 shuf2 data item).options.Perm
      ((((shuf1 item (data.filter (fun w => w.english ≠ item.english))).take 3).map
          VocabWord.english) ++ [item.english]) := h2 _ _
  constructor
  · intro hN
    have hlen_filter :
        ((data.map VocabWord.english).filter (fun x => x ≠ item.english)).length
          = data.length - 1 := by
      have := length_filter_ne_of_nodup (data.map VocabWord.english) item.english hnd
        (List.mem_map_of_mem _ hmem)
      simpa using this
    have hlen_shufmap :
        ((shuf1 item (data.filter (fun w => w.english ≠ item.english))).map
            VocabWord.english).length = data.length - 1 := by
      rw [hperm_map.length_eq, hlen_filter]
    have hlen_d :
        (((shuf1 item (data.filter (fun w => w.english ≠ item.english))).take 3).map
            VocabWord.english).length = 3 := by
      rw [hd_eq, List.length_take]
      omega
    refine ⟨?_, ?_, ?_, ?_⟩
    · rw [hperm2.length_eq, List.length_append, hlen_d]
      rfl
    · refine hperm2.nodup_iff.2 ?_
      refine List.nodup_append.2 ⟨hnd_d, List.nodup_singleton _, ?_⟩
      intro x hx hx2
      exact (hmem_d x hx).1 (List.mem_singleton.1 hx2)
    · rw [hperm2.count_eq, List.count_append,
        List.count_eq_zero_of_not_mem hnotin]
      simp
    · intro o ho
      have ho2 := hperm2.mem_iff.1 ho
      rcases List.mem_append.1 ho2 with h | h
      · exact Or.inr (hmem_d o h)
      · exact Or.inl (List.mem_singleton.1 h)
  · intro hN
    have hflt := List.length_filter_le
      (fun w => decide (w.english ≠ item.english)) data
    have hlen_shuf :
        (shuf1 item (data.filter (fun w => w.english ≠ item.english))).length
          = (data.filter (fun w => w.english ≠ item.english)).length :=
      hperm1.length_eq
    have hle : (shuf1 item (data.filter (fun w => w.english ≠ item.english))).length ≤ 3 := by
      omega
    have htake : (shuf1 item (data.filter (fun w => w.english ≠ item.english))).take 3
        = shuf1 item (data.filter (fun w => w.english ≠ item.english)) :=
      List.take_of_length_le hle
    refine hperm2.trans ?_
    rw [htake]
    exact (hperm_map.append_right [item.english]).trans
      (List.perm_append_singleton _ _)

/-- C1: for every vocabulary list with pairwise distinct english values (the
identity-key invariant of the data model) and every admissible resolution of
the two random sorts, the generator produces exactly one quiz item per input
item; with N at least 4 each options list holds exactly 4 distinct strings
containing the item answer exactly once with the rest drawn from the other
items; with N below 4 the options are exactly the item answer plus all N-1
remaining english values, and the generator is total, so it never crashes. -/
theorem c1_quiz_generator
    (shuf1 : VocabWord → List VocabWord → List VocabWord)
    (shuf2 : VocabWord → List String → List String)
    (data : List VocabWord)
    (h1 : ∀ w l, (shuf1 w l).Perm l)
    (h2 : ∀ w l, (shuf2 w l).Perm l)
    (hnd : (data.map VocabWord.english).Nodup) :
    (makeQuizItems shuf1 shuf2 data).length = data.length ∧
    ∀ (i : Nat) (item : VocabWord) (q : QuizItem),
      data[i]? = some item →
      (makeQuizItems shuf1 shuf2 data)[i]? = some q →
      ((4 ≤ data.length →
          q.options.length = 4 ∧ q.options.Nodup ∧
          q.options.count item.english = 1 ∧
          ∀ o ∈ q.options,
            o = item.english ∨ (o ≠ item.english ∧ o ∈ data.map VocabWord.english)) ∧
       (data.length < 4 →
          q.options.Perm
            (item.english ::
              (data.map VocabWord.english).filter (fun x => x ≠ item.english)))) := by
  constructor
  · simp [makeQuizItems]
  · intro i item q hitem hq
    have hqe : q = makeQuizItem shuf1 shuf2 data item := by
      rw [makeQuizItems, List.getElem?_map, hitem] at hq
      exact (Option.some.inj hq).symm
    subst hqe
    exact makeQuizItem_spec shuf1 shuf2 data item h1 h2 hnd (List.getElem?_mem hitem)

/-- C1 witness: the generator theorem applies at the concrete four-word list
with the identity resolution of both sorts. -/
theorem c1_quiz_generator_witness :
    (makeQuizItems idShuffle1 idShuffle2 sampleVocab).length = sampleVocab.length :=
  (c1_quiz_generator idShuffle1 idShuffle2 sampleVocab
    (fun _ l => List.Perm.refl l) (fun _ l => List.Perm.refl l) (by decide)).1
